import Mathlib

/-!
Verification development for the facematch repository (`hash_advanced.py`,
`facematch.py`): a shallow embedding of the profile crawler, the existence
strategies, the avatar-URL filter, the rate limiter, and the face index,
together with theorems settling the specification claims.

External capabilities (HTTP fetching, HTML parsing into DOM features, the
face-embedding library, the JSON text layer) are modelled as inputs, exactly
as the specification's §6 treats them.
-/

namespace Facematch

/-- Python `str.lower()` restricted to ASCII case mapping, as used on the
crawler's HTML text. -/
def pyLower (s : String) : String := ⟨s.data.map Char.toLower⟩

/-- Python `hay.startswith(needle)`. -/
def pyStartsWith (hay needle : String) : Bool :=
  needle.data.isPrefixOf hay.data

/-- Python `hay.endswith(needle)`. -/
def pyEndsWith (hay needle : String) : Bool :=
  needle.data.reverse.isPrefixOf hay.data.reverse

/-- Substring test on character lists: `needle` occurs inside `hay`.
Models Python's `needle in hay` for strings (the empty needle matches). -/
def listContainsSub (hay needle : List Char) : Bool :=
  match hay with
  | [] => needle.isEmpty
  | _ :: t => needle.isPrefixOf hay || listContainsSub t needle

/-- Python's `needle in hay` substring operator. -/
def strContains (hay needle : String) : Bool :=
  listContainsSub hay.toList needle.toList

/-- Python `str.strip()`: remove leading and trailing whitespace. -/
def pyStrip (s : String) : String :=
  ⟨((s.data.dropWhile Char.isWhitespace).reverse.dropWhile
      Char.isWhitespace).reverse⟩

/-- Split a character list on the two-character placeholder `\x7b\x7d`, the
pieces between consecutive placeholders. -/
def splitBraces : List Char → List (List Char)
  | [] => [[]]
  | '\x7b' :: '\x7d' :: rest => [] :: splitBraces rest
  | c :: rest =>
    match splitBraces rest with
    | [] => [[c]]
    | h :: t => (c :: h) :: t

/-- Python `pattern.format(arg)` for URL templates holding at most one
positional `\x7b\x7d` placeholder (the repository's templates carry exactly
one): every placeholder is replaced by `arg`. -/
def pyFormat (pat arg : String) : String :=
  ⟨List.intercalate arg.data (splitBraces pat.data)⟩

/-- Python `str.replace`, replacing the characters `\n` and `\r` by spaces,
as `universal_check` does on the page text. -/
def replaceNlCr (s : String) : String :=
  ⟨s.data.map (fun c => if c = '\n' || c = '\r' then ' ' else c)⟩

/-- An HTTP response as the site checkers observe it (`requests.Response`):
the status code, final URL after redirects, raw body text, plus the features
of the parsed document (BeautifulSoup is the external HTML parser; the
checkers only consult these derived facts of the DOM). -/
structure Response where
  status_code : Nat
  url : String
  text : String
  /-- text of the `<title>` element, when the page has one -/
  titleText : Option String
  /-- `content` attributes of all `<meta>` elements -/
  metaContents : List String
  /-- `src` attributes of all `<img>` elements -/
  imgSrcs : List String
  /-- a `<div class="user-profile-frame">` element is present -/
  hasUserProfileFrameDiv : Bool
  /-- a `<span itemprop="name">` element is present -/
  hasItempropNameSpan : Bool
  /-- `soup.get_text()`: the concatenated visible text of the page -/
  pageText : String
  deriving Repr, DecidableEq

/-- `SiteCheckers.github_check` not-found marker phrases. -/
def githubNotFound : List String :=
  ["this is not the web page you are looking for",
   "page not found",
   "github could not find that page",
   "there isn't a github pages site here"]

/-- `SiteCheckers.github_check` positive profile indicators. -/
def githubProfileIndicators : List String :=
  ["itemprop=\"name\"",
   "vcard-names-container",
   "js-profile-editable-area",
   "p-nickname vcard-username",
   "user-profile-frame"]

/-- `SiteCheckers.github_check`. -/
def github_check (r : Response) (username : String) : Bool :=
  if r.status_code ≠ 200 then false
  else
    let html := pyLower r.text
    if githubNotFound.any (fun s => strContains html s) then false
    else if strContains html (pyLower username) &&
            githubProfileIndicators.any (fun s => strContains html s) then true
    else if r.hasUserProfileFrameDiv then true
    else if r.hasItempropNameSpan then true
    else if (match r.titleText with
             | some t => strContains (pyLower t) (pyLower username)
             | none => false) then true
    else if r.imgSrcs.any (fun src =>
        strContains src "avatars.githubusercontent.com" &&
        !strContains src "identicon") then true
    else false

/-- `SiteCheckers.stackoverflow_check`. -/
def stackoverflow_check (r : Response) (_username : String) : Bool :=
  if r.status_code ≠ 200 then false
  else
    let html := pyLower r.text
    if strContains html "page not found" ||
       strContains html "404 - page not found" then false
    else if ["user-card", "user-avatar", "user-details"].any
        (fun s => strContains html s) then true
    else false

/-- `SiteCheckers.twitter_check`. -/
def twitter_check (r : Response) (username : String) : Bool :=
  let finalUrl := pyLower r.url
  if strContains finalUrl "twitter.com/home" then false
  else if strContains finalUrl ("twitter.com/" ++ pyLower username) then true
  else
    let html := pyLower r.text
    if strContains html "this account doesn't exist" ||
       strContains html "account suspended" then false
    else if strContains html "profile-header" ||
            strContains html "user-actions" then true
    else r.status_code == 200

/-- `SiteCheckers.instagram_check`. -/
def instagram_check (r : Response) (_username : String) : Bool :=
  if r.status_code ≠ 200 then false
  else
    let html := pyLower r.text
    if strContains html "sorry, this page isn't available" then false
    else if strContains html "profile-page" || strContains html "vcard" then true
    else true

/-- `SiteCheckers.reddit_check`. -/
def reddit_check (r : Response) (username : String) : Bool :=
  if r.status_code ≠ 200 then false
  else
    let html := pyLower r.text
    if strContains html "page not found" ||
       strContains html "this user has deleted" then false
    else if strContains html "user-profile" ||
            strContains html ("user/" ++ pyLower username) then true
    else true

/-- `SiteCheckers.artstation_check`. -/
def artstation_check (r : Response) (_username : String) : Bool :=
  if r.status_code ≠ 200 then false
  else
    let html := pyLower r.text
    if strContains html "doesn't exist" || strContains html "page not found" then false
    else if strContains html "artist-header" ||
            strContains html "user-profile" then true
    else true

/-- `SiteCheckers.deviantart_check`. -/
def deviantart_check (r : Response) (_username : String) : Bool :=
  if r.status_code ≠ 200 then false
  else
    let html := pyLower r.text
    if strContains html "deviation you are looking for" ||
       strContains html "does not exist" then false
    else true

/-- `SiteCheckers.flickr_check`. -/
def flickr_check (r : Response) (_username : String) : Bool :=
  if r.status_code ≠ 200 then false
  else
    let html := pyLower r.text
    if strContains html "no longer active" ||
       strContains html "does not exist" then false
    else true

/-- `SiteCheckers._500px_check`. -/
def _500px_check (r : Response) (_username : String) : Bool :=
  if r.status_code ≠ 200 then false
  else
    let html := pyLower r.text
    if strContains html "could not be found" then false
    else true

/-- `SiteCheckers.bandcamp_check`. -/
def bandcamp_check (r : Response) (_username : String) : Bool :=
  if r.status_code ≠ 200 then false
  else
    let html := pyLower r.text
    if strContains html "couldn't find that one" then false
    else true

/-- `SiteCheckers.keybase_check`. -/
def keybase_check (r : Response) (_username : String) : Bool :=
  if r.status_code ≠ 200 then false
  else
    let html := pyLower r.text
    if strContains html "user not found" then false
    else true

/-- `SiteCheckers.gitlab_check`. -/
def gitlab_check (r : Response) (_username : String) : Bool :=
  if r.status_code == 404 then false
  else if r.status_code ≠ 200 then true
  else
    let html := pyLower r.text
    if strContains html "page could not be found" then false
    else true

/-- `SiteCheckers.universal_check` not-found marker phrases. -/
def universalNotFound : List String :=
  ["page not found", "404", "not found", "doesn't exist", "does not exist",
   "couldn't be found", "no longer available", "user not found",
   "profile not found", "account not found", "this page could not be found",
   "sorry, this page isn't available", "the page you were looking for",
   "we couldn't find that page"]

/-- `SiteCheckers.universal_check` profile-keyword vocabulary. -/
def universalProfileKeywords : List String :=
  ["profile", "user", "member", "account", "avatar"]

/-- `SiteCheckers.universal_check`. -/
def universal_check (r : Response) (username : String) : Bool :=
  if r.status_code ≠ 200 then false
  else
    let html := pyLower r.text
    if universalNotFound.any (fun s => strContains html s) then false
    else if (match r.titleText with
             | some t => strContains (pyLower t) (pyLower username)
             | none => false) then true
    else if r.metaContents.any (fun c =>
        strContains (pyLower c) (pyLower username)) then true
    else
      let pageTextL := pyLower r.pageText
      if universalProfileKeywords.any (fun k =>
           strContains pageTextL k &&
           strContains (replaceNlCr pageTextL) (pyLower username)) then true
      else true

/-- Split a character list at the first occurrence of `c`:
`some (before, after)` with `c` itself dropped, or `none` when absent. -/
def splitAtFirst (c : Char) : List Char → Option (List Char × List Char)
  | [] => none
  | x :: xs =>
    if x = c then some ([], xs)
    else match splitAtFirst c xs with
         | none => none
         | some (pre, post) => some (x :: pre, post)

/-- Split a character list at the last occurrence of `c`. -/
def splitAtLast (c : Char) (l : List Char) : Option (List Char × List Char) :=
  match splitAtFirst c l.reverse with
  | none => none
  | some (rpost, rpre) => some (rpre.reverse, rpost.reverse)

/-- Take characters until one of the delimiters is reached, returning the
prefix and the remainder (remainder begins with the delimiter). -/
def takeUntilDelims (delims : List Char) : List Char → List Char × List Char
  | [] => ([], [])
  | x :: xs =>
    if delims.contains x then ([], x :: xs)
    else
      let (pre, post) := takeUntilDelims delims xs
      (x :: pre, post)

/-- The components of a parsed URL, as `urllib.parse.urlparse` returns them. -/
structure UrlParts where
  scheme : String
  netloc : String
  path : String
  params : String
  query : String
  fragment : String
  deriving Repr, DecidableEq

/-- A character allowed in a URL scheme (`urllib.parse.scheme_chars`). -/
def isSchemeChar (c : Char) : Bool :=
  c.isAlphanum || c = '+' || c = '-' || c = '.'

/-- `urllib.parse.urlparse`: split off the scheme (lower-cased, only when the
part before the first `:` is a well-formed scheme), then the network location
after `//` (ended by `/`, `?` or `#`), then the fragment at the first `#`,
then the query at the first `?`, and finally the params at the first `;` of
the last path segment. -/
def pyUrlparse (s : String) : UrlParts :=
  let l := s.toList
  let (scheme, rest) :=
    match splitAtFirst ':' l with
    | none => ("", l)
    | some (pre, post) =>
      if pre ≠ [] && (pre.headD ' ').isAlpha && pre.all isSchemeChar then
        ((⟨pre.map Char.toLower⟩ : String), post)
      else ("", l)
  let (netloc, rest) :=
    match rest with
    | '/' :: '/' :: r =>
      let (n, r2) := takeUntilDelims ['/', '?', '#'] r
      (n, r2)
    | _ => ([], rest)
  let (rest, fragment) :=
    match splitAtFirst '#' rest with
    | none => (rest, [])
    | some (pre, post) => (pre, post)
  let (pathRaw, query) :=
    match splitAtFirst '?' rest with
    | none => (rest, [])
    | some (pre, post) => (pre, post)
  let (path, params) :=
    if pathRaw.contains '/' then
      match splitAtLast '/' pathRaw with
      | some (pre, post) =>
        (match splitAtFirst ';' post with
         | none => (pathRaw, [])
         | some (p, prm) => (pre ++ '/' :: p, prm))
      | none => (pathRaw, [])
    else
      match splitAtFirst ';' pathRaw with
      | none => (pathRaw, [])
      | some (p, prm) => (p, prm)
  { scheme := scheme, netloc := ⟨netloc⟩, path := ⟨path⟩,
    params := ⟨params⟩, query := ⟨query⟩, fragment := ⟨fragment⟩ }

/-- The rebuilt URL `f"\x7bparsed.scheme\x7d://\x7bparsed.netloc\x7d\x7bparsed.path\x7d"`
of `extract_images`. -/
def mkCleanUrl (p : UrlParts) : String :=
  p.scheme ++ "://" ++ p.netloc ++ p.path

/-- `CrawlerConfig.VALID_IMAGE_EXTENSIONS` (a set in the source; only
membership is used). -/
def validImageExtensions : List String :=
  [".jpg", ".jpeg", ".png", ".gif", ".bmp", ".webp", ".svg"]

/-- The hard-coded known avatar hosts of `extract_images`. -/
def knownAvatarHosts : List String :=
  ["avatars.githubusercontent.com", "gravatar.com", "avatar.trakt.tv",
   "ugc.production.linktr.ee", "cdn.discordapp.com",
   "pbs.twimg.com/profile_images", "instagram.fbom1-2.fna.fbcdn.net",
   "scontent.cdninstagram.com", "i.redd.it", "i.imgur.com",
   "public.onlyfans.com/files"]

/-- One step of the filter-and-clean loop of `extract_images`
(`hash_advanced.py` lines 863–903): skip `data:`/`javascript:` URIs, rebuild
the URL without query and fragment, and keep it when the path carries a valid
image extension or the cleaned URL contains a known avatar host. -/
def filterCleanStep (acc : List String) (url : String) : List String :=
  if pyStartsWith url "data:" || pyStartsWith url "javascript:" then acc
  else
    let parsed := pyUrlparse url
    let clean := mkCleanUrl parsed
    let pathLower := pyLower parsed.path
    let hasImageExt := validImageExtensions.any (fun e => pyEndsWith pathLower e)
    let isKnownAvatarHost := knownAvatarHosts.any (fun h => strContains (pyLower clean) h)
    if hasImageExt || isKnownAvatarHost then acc ++ [clean] else acc

/-- The filter-and-clean loop of `extract_images`, iterating over the
collected `image_urls` set in its iteration order. -/
def filterClean (urls : List String) : List String :=
  urls.foldl filterCleanStep []

/-- The per-URL outcome of the filter-and-clean loop: the cleaned URL when
the body keeps it, `none` when the loop skips it. -/
def filterCleanOpt (url : String) : Option String :=
  if pyStartsWith url "data:" || pyStartsWith url "javascript:" then none
  else
    let parsed := pyUrlparse url
    let clean := mkCleanUrl parsed
    let pathLower := pyLower parsed.path
    let hasImageExt := validImageExtensions.any (fun e => pyEndsWith pathLower e)
    let isKnownAvatarHost := knownAvatarHosts.any (fun h => strContains (pyLower clean) h)
    if hasImageExt || isKnownAvatarHost then some clean else none

/-- `list(set(xs))` modelled as first-occurrence de-duplication; the order of
a Python set enumeration is arbitrary and is induced here by the order of the
already-nondeterministic iteration over the `image_urls` set upstream. -/
def dedupFirstAux (seen : List String) : List String → List String
  | [] => []
  | x :: xs =>
    if seen.contains x then dedupFirstAux seen xs
    else x :: dedupFirstAux (x :: seen) xs

/-- `list(set(xs))`: each distinct element once. -/
def dedupFirst (l : List String) : List String := dedupFirstAux [] l

/-- The final stage of `EnhancedProfileCrawler.extract_images`
(`hash_advanced.py` lines 863–903).  The extraction phases 1–6 accumulate a
Python *set* of candidate URLs; `imageUrlsEnum` is that set given in its
iteration order.  Set iteration order is unspecified in Python and varies
across runs (string hash randomization), so this enumeration parameter is the
injected nondeterminism of the source. -/
def extract_images (imageUrlsEnum : List String) : List String :=
  (dedupFirst (filterClean imageUrlsEnum)).take 10

/-- A platform entry of the `profile_templates.json` configuration when it is
a JSON object; absent keys are `none` (the source reads them with
`dict.get` and a default). -/
structure PlatformConfig where
  url : Option String
  check_method : Option String
  avatar_selector : Option String
  enabled : Option Bool
  deriving Repr, DecidableEq

/-- A profile-template value: either a bare URL-pattern string or a
configuration object. -/
inductive TemplateVal where
  | strT (url : String)
  | objT (cfg : PlatformConfig)
  deriving Repr, DecidableEq

/-- The loaded `profile_templates` dictionary (string keys are unique). -/
def Templates := List (String × TemplateVal)

/-- `check_profile`'s normalization: `profile_templates.get(platform, \x7b\x7d)`
followed by the `isinstance(platform_config, str)` rewrite into
`\x7b"url": ..., "check_method": "status_code"\x7d`. -/
def normalizeConfig : Option TemplateVal → PlatformConfig
  | none => ⟨none, none, none, none⟩
  | some (.strT u) => ⟨some u, some "status_code", none, none⟩
  | some (.objT c) => c

/-- The `check_method` dispatch chain of `check_profile`
(`hash_advanced.py` lines 591–621); an unrecognized method falls back to the
status-code check. -/
def dispatchCheck (method : String) (r : Response) (username : String) : Bool :=
  if method = "status_code" then r.status_code == 200
  else if method = "github_check" then github_check r username
  else if method = "twitter_check" then twitter_check r username
  else if method = "instagram_check" then instagram_check r username
  else if method = "reddit_check" then reddit_check r username
  else if method = "stackoverflow_check" then stackoverflow_check r username
  else if method = "artstation_check" then artstation_check r username
  else if method = "deviantart_check" then deviantart_check r username
  else if method = "flickr_check" then flickr_check r username
  else if method = "500px_check" then _500px_check r username
  else if method = "bandcamp_check" then bandcamp_check r username
  else if method = "keybase_check" then keybase_check r username
  else if method = "gitlab_check" then gitlab_check r username
  else if method = "universal_check" then universal_check r username
  else r.status_code == 200

/-- `EnhancedProfileCrawler.check_profile`'s probe result dictionary.  The
error branches of the source omit the `final_url` and `content_length` keys,
hence those fields are optional. -/
structure ProbeResult where
  exists_ : Bool
  status_code : Nat
  url : String
  image_urls : List String
  error : Option String
  platform : String
  username : String
  final_url : Option String
  content_length : Option Nat
  deriving Repr, DecidableEq

/-- Outcome of the HTTP GET inside `check_profile`: a response, or one of the
exception classes the source catches. -/
inductive FetchOutcome where
  | ok (resp : Response)
  | timeout
  | connectionError
  | exc (msg : String)
  deriving Repr

/-- `EnhancedProfileCrawler.check_profile` (`hash_advanced.py` lines
562–671).  The network fetch is external and enters as `outcome`;
`collectedImageUrls` is the candidate set handed to the final stage of
`extract_images` (its phases walk the fetched DOM, which is external
parser output). -/
def check_profile (templates : Templates) (url platform username : String)
    (outcome : FetchOutcome) (collectedImageUrls : List String) : ProbeResult :=
  match outcome with
  | .ok resp =>
    let cfg := normalizeConfig (List.lookup platform templates)
    let method := cfg.check_method.getD "status_code"
    let ex := dispatchCheck method resp username
    let image_urls := if ex then extract_images collectedImageUrls else []
    { exists_ := ex, status_code := resp.status_code, url := resp.url,
      image_urls := image_urls, error := none, platform := platform,
      username := username, final_url := some resp.url,
      content_length := some resp.text.length }
  | .timeout =>
    { exists_ := false, status_code := 408, url := url, image_urls := [],
      error := some "Timeout", platform := platform, username := username,
      final_url := none, content_length := none }
  | .connectionError =>
    { exists_ := false, status_code := 0, url := url, image_urls := [],
      error := some "Connection error", platform := platform,
      username := username, final_url := none, content_length := none }
  | .exc msg =>
    { exists_ := false, status_code := 0, url := url, image_urls := [],
      error := some msg, platform := platform, username := username,
      final_url := none, content_length := none }

/-- The dictionary comprehension
`results = \x7busername: [] for username in usernames\x7d`: one key per distinct
username, first-occurrence position kept. -/
def initResults (usernames : List String) : List (String × List ProbeResult) :=
  usernames.foldl
    (fun d u => if d.any (fun kv => kv.1 == u) then d else d ++ [(u, [])]) []

/-- The URL a future is submitted with: the template's url pattern formatted
with the (stripped) username. -/
def templateUrl (tv : TemplateVal) (u : String) : String :=
  match tv with
  | .strT s => pyFormat s u
  | .objT c => pyFormat (c.url.getD "") u

/-- The submission loop of `crawl_usernames` (`hash_advanced.py` lines
915–937): one future per username × platform, skipping usernames that strip
to the empty string, platforms absent from the templates, and empty URLs.
Each entry is `(stripped username, platform, url)`. -/
def buildFutures (templates : Templates) (usernames platforms : List String) :
    List (String × String × String) :=
  usernames.flatMap (fun u0 =>
    let u := pyStrip u0
    if u = "" then []
    else platforms.filterMap (fun p =>
      match List.lookup p templates with
      | none => none
      | some tv =>
        let url := templateUrl tv u
        if url = "" then none else some (u, p, url)))

/-- `results[username].append(result)` in the result-processing loop: the
dictionary is keyed by the *original* usernames while the append uses the
*stripped* one; a missing key raises `KeyError`, which the surrounding
`except Exception` swallows, dropping the result. -/
def appendResult (res : List (String × List ProbeResult)) (u : String)
    (r : ProbeResult) : List (String × List ProbeResult) :=
  if res.any (fun kv => kv.1 == u) then
    res.map (fun kv => if kv.1 == u then (kv.1, kv.2 ++ [r]) else kv)
  else res

/-- `EnhancedProfileCrawler.crawl_usernames` (`hash_advanced.py` lines
905–959).  `probe url platform username` abstracts `check_profile`'s
network-dependent value; the processing loop walks the futures in submission
order and each `future.result()` yields that value. -/
def crawl_usernames (probe : String → String → String → ProbeResult)
    (templates : Templates) (usernames platforms : List String) :
    List (String × List ProbeResult) :=
  (buildFutures templates usernames platforms).foldl
    (fun res f => appendResult res f.1 (probe f.2.2 f.2.1 f.1))
    (initResults usernames)

/-- Total number of probe results in a crawl mapping. -/
def totalResults (m : List (String × List ProbeResult)) : Nat :=
  (m.map (fun kv => kv.2.length)).sum

/-- Modelled from the spec (§4.5, §8): the "enabled platforms in P" — the
members of `P` that the configuration lists with their `enabled` flag true
(`get_enabled_platforms` reads the flag with `config.get("enabled", True)`). -/
def enabledPlatformsIn (templates : Templates) (platforms : List String) :
    List String :=
  platforms.filter (fun p =>
    match List.lookup p templates with
    | some (.objT c) => c.enabled.getD true
    | some (.strT _) => true
    | none => false)

/-- `EnhancedProfileCrawler.check_rate_limit` (`hash_advanced.py` lines
450–462) in a timed sequential semantics: given the per-domain timestamp
cache, the domain, the wall-clock time `now` at which the call is entered and
the configured `RATE_LIMIT_DELAY`, it returns the updated cache and the
wall-clock time at which the call returns (entry time plus any sleep).
Faithful to the source, the cache stores `current_time` — the time captured
at entry, not the return time. -/
def check_rate_limit (cache : List (String × ℚ)) (domain : String)
    (now delay : ℚ) : List (String × ℚ) × ℚ :=
  let sleepTime : ℚ :=
    match List.lookup domain cache with
    | none => 0
    | some last =>
      let elapsed := now - last
      if elapsed < delay then delay - elapsed else 0
  let cache' :=
    if cache.any (fun kv => kv.1 == domain) then
      cache.map (fun kv => if kv.1 == domain then (kv.1, now) else kv)
    else cache ++ [(domain, now)]
  (cache', now + sleepTime)

/-- A stored face record (`face_record` dictionary of `index_from_results`):
strings, the embedding vector, and the insertion timestamp. -/
structure FaceRecord where
  username : String
  platform : String
  page_url : String
  image_url : String
  encoding : List ℚ
  timestamp : ℚ
  deriving Repr, DecidableEq

/-- The body of the per-image `try` block of
`FaceIndexSystem.index_from_results`: download (`get_image_bytes`, external
I/O entering as `fetch`; `if not img_bytes` also rejects empty bytes), embed
(`compute_face_encoding`, the external embedding capability entering as
`encode`), and on success build the face record. -/
def indexTryImage (fetch : String → Option (List Nat))
    (encode : List Nat → Option (List ℚ)) (now : ℚ) (username : String)
    (r : ProbeResult) (image_url : String) : Option FaceRecord :=
  match fetch image_url with
  | none => none
  | some bytes =>
    if bytes = [] then none
    else
      match encode bytes with
      | none => none
      | some e =>
        some { username := username, platform := r.platform,
               page_url := r.url, image_url := image_url, encoding := e,
               timestamp := now }

/-- The innermost loop of `index_from_results`: walk the candidate image
URLs, appending each successfully indexed record to both the accumulated
`self.faces` and `new_faces`; a failed candidate (`continue` or a caught
exception) leaves the state untouched. -/
def indexUrlsLoop (tryImage : String → Option FaceRecord)
    (st : List FaceRecord × List FaceRecord) (urls : List String) :
    List FaceRecord × List FaceRecord :=
  urls.foldl (fun st u =>
    match tryImage u with
    | none => st
    | some rec => (st.1 ++ [rec], st.2 ++ [rec])) st

/-- The per-result body of `index_from_results`: skip results whose
`exists` flag is false, otherwise try at most the first 2 candidate URLs. -/
def indexResultLoop (fetch : String → Option (List Nat))
    (encode : List Nat → Option (List ℚ)) (now : ℚ) (username : String)
    (st : List FaceRecord × List FaceRecord) (r : ProbeResult) :
    List FaceRecord × List FaceRecord :=
  if !r.exists_ then st
  else indexUrlsLoop (indexTryImage fetch encode now username r) st
    (r.image_urls.take 2)

/-- `FaceIndexSystem.index_from_results` (`hash_advanced.py` lines
1040–1078): nested loops over the crawl mapping.  Returns
`(final self.faces, new_faces)`. -/
def index_from_results (fetch : String → Option (List Nat))
    (encode : List Nat → Option (List ℚ)) (now : ℚ)
    (faces : List FaceRecord)
    (crawl_results : List (String × List ProbeResult)) :
    List FaceRecord × List FaceRecord :=
  crawl_results.foldl (fun st kv =>
    kv.2.foldl (indexResultLoop fetch encode now kv.1) st)
    (faces, ([] : List FaceRecord))

/-- The spec's description of the indexing pipeline (§4.6): only results
with `exists=true` contribute, at most the first 2 candidate URLs are
attempted, and each candidate whose download and embedding succeed yields
exactly one face record; failures contribute nothing and abort nothing. -/
def indexedFacesSpec (fetch : String → Option (List Nat))
    (encode : List Nat → Option (List ℚ)) (now : ℚ)
    (crawl_results : List (String × List ProbeResult)) : List FaceRecord :=
  crawl_results.flatMap (fun kv =>
    kv.2.flatMap (fun r =>
      if r.exists_ then
        (r.image_urls.take 2).filterMap (indexTryImage fetch encode now kv.1 r)
      else []))

/-- A search hit of `FaceIndexSystem.search_faces`. -/
structure MatchResult where
  username : String
  platform : String
  similarity : ℚ
  distance : ℚ
  match_ : Bool
  page_url : String
  image_url : String
  deriving Repr, DecidableEq

/-- The result dictionary `search_faces` builds for one stored face:
`distance` comes from the external embedding capability's metric against
the fixed query vector (entering as `dist`), `similarity` is
`max(0.0, 1.0 - min(distance, 1.0))` and `match` is `distance < threshold`. -/
def mkMatchResult (dist : List ℚ → ℚ) (threshold : ℚ) (f : FaceRecord) :
    MatchResult :=
  let distance := dist f.encoding
  { username := f.username, platform := f.platform,
    similarity := max 0 (1 - min distance 1), distance := distance,
    match_ := decide (distance < threshold), page_url := f.page_url,
    image_url := f.image_url }

/-- The comparison of `results.sort(key=lambda x: x["similarity"],
reverse=True)`: descending similarity; Python's sort is stable. -/
def searchLE (a b : MatchResult) : Bool := decide (b.similarity ≤ a.similarity)

/-- `FaceIndexSystem.search_faces` (`hash_advanced.py` lines 1080–1103):
build one result per stored face in insertion order, stable-sort by
descending similarity, truncate to `top_k`. -/
def search_faces (faces : List FaceRecord) (dist : List ℚ → ℚ)
    (threshold : ℚ) (top_k : Nat) : List MatchResult :=
  (((faces.map (mkMatchResult dist threshold)).mergeSort searchLE).take top_k)

/-- The `FaceIndexSystem` object state: its `faces` list. -/
structure FaceIndexSystem where
  faces : List FaceRecord
  deriving Repr, DecidableEq

/-- `search_faces` as a method on the system state: the source only reads
`self.faces`, so the state component after the call is the state it was
called in. -/
def search_faces_method (st : FaceIndexSystem) (dist : List ℚ → ℚ)
    (threshold : ℚ) (top_k : Nat) : List MatchResult × FaceIndexSystem :=
  (search_faces st.faces dist threshold top_k, st)

/-- JSON values, the boundary of `save_index`/`load_index`.  The textual
layer (`json.dump`/`json.load` and the file) is the external standard
library; the index code is modelled at the JSON-value boundary. -/
inductive Json where
  | null
  | bool (b : Bool)
  | num (q : ℚ)
  | str (s : String)
  | arr (elems : List Json)
  | obj (fields : List (String × Json))

/-- Serialization of one face record, mirroring the dictionary shape built in
`index_from_results` (spec §3 FaceRecord). -/
def faceRecordToJson (r : FaceRecord) : Json :=
  .obj [("username", .str r.username), ("platform", .str r.platform),
        ("page_url", .str r.page_url), ("image_url", .str r.image_url),
        ("encoding", .arr (r.encoding.map Json.num)),
        ("timestamp", .num r.timestamp)]

/-- Decode one coordinate of a stored embedding vector. -/
def jsonToRat : Json → Option ℚ
  | .num q => some q
  | _ => none

/-- Decode one face record from its JSON value (the record shape of spec §3;
the source keeps the parsed dictionaries as-is, which this typed model reads
back into `FaceRecord`). -/
def faceRecordFromJson : Json → Option FaceRecord
  | .obj fields =>
    match List.lookup "username" fields, List.lookup "platform" fields,
          List.lookup "page_url" fields, List.lookup "image_url" fields,
          List.lookup "encoding" fields, List.lookup "timestamp" fields with
    | some (.str u), some (.str p), some (.str pu), some (.str iu),
      some (.arr es), some (.num t) =>
      match es.mapM jsonToRat with
      | some enc => some ⟨u, p, pu, iu, enc, t⟩
      | none => none
    | _, _, _, _, _, _ => none
  | _ => none

/-- `FaceIndexSystem.save_index` (`hash_advanced.py` lines 1105–1118): the
JSON value written to the file — the face list plus a metadata block with the
total count and a timestamp. -/
def save_index (faces : List FaceRecord) (now : ℚ) : Json :=
  .obj [("faces", .arr (faces.map faceRecordToJson)),
        ("metadata",
         .obj [("total", .num (faces.length : ℚ)), ("timestamp", .num now)])]

/-- `FaceIndexSystem.load_index` (`hash_advanced.py` lines 1120–1131): read
the parsed JSON value, take `data.get("faces", [])` and install it as the new
record list; `none` models the caught-exception path (`return False`,
in-memory state untouched). -/
def load_index (j : Json) : Option (List FaceRecord) :=
  match j with
  | .obj fields =>
    match List.lookup "faces" fields with
    | some (.arr xs) => xs.mapM faceRecordFromJson
    | some _ => none
    | none => some []
  | _ => none

/-- The URL `crawl_usernames` submits for a platform and (stripped)
username: the looked-up template's pattern formatted with the username,
empty when the platform is not configured. -/
def resolvedUrl (templates : Templates) (p u : String) : String :=
  match List.lookup p templates with
  | some tv => templateUrl tv u
  | none => ""

/-- An ambiguous 200 response: empty body, no title, no meta tags, no
images, no profile markers — it matches no not-found indicator and no
positive profile indicator of any checker. -/
def ambResponse : Response :=
  { status_code := 200, url := "", text := "", titleText := none,
    metaContents := [], imgSrcs := [], hasUserProfileFrameDiv := false,
    hasItempropNameSpan := false, pageText := "" }

/-- A non-200 response whose final URL is the probed Twitter profile (the
redirect-based checker consults the final URL before the status). -/
def twResponse : Response :=
  { status_code := 403, url := "https://twitter.com/alice", text := "",
    titleText := none, metaContents := [], imgSrcs := [],
    hasUserProfileFrameDiv := false, hasItempropNameSpan := false,
    pageText := "" }

/-- A bare 500 response. -/
def resp500 : Response :=
  { status_code := 500, url := "", text := "", titleText := none,
    metaContents := [], imgSrcs := [], hasUserProfileFrameDiv := false,
    hasItempropNameSpan := false, pageText := "" }

/-- A bare 404 response. -/
def resp404 : Response :=
  { status_code := 404, url := "", text := "", titleText := none,
    metaContents := [], imgSrcs := [], hasUserProfileFrameDiv := false,
    hasItempropNameSpan := false, pageText := "" }

/-- A concrete probe function standing in for `check_profile`'s value at a
submitted request (the crawl-shape claims hold for any such function). -/
def probe0 : String → String → String → ProbeResult := fun url p u =>
  { exists_ := false, status_code := 0, url := url, image_urls := [],
    error := none, platform := p, username := u, final_url := none,
    content_length := none }

/-- A one-platform template configuration with the platform enabled. -/
def templatesC : Templates :=
  [("e", .objT ⟨some "https://e.test/\x7b\x7d", some "status_code", none,
                some true⟩)]

/-- A concrete image fetcher for the indexing scenario: the first candidate
URL fails to download, the second succeeds. -/
def demoFetch : String → Option (List Nat) := fun u =>
  if u = "https://e.test/b.jpg" then some [1] else none

/-- A concrete embedding capability that detects a face in every image. -/
def demoEncode : List Nat → Option (List ℚ) := fun _ => some [0]

/-- A probe result with `exists=true` and two candidate image URLs, the
first of which fails to download. -/
def demoProbeResult : ProbeResult :=
  { exists_ := true, status_code := 200, url := "https://e.test/alice",
    image_urls := ["https://e.test/a.jpg", "https://e.test/b.jpg"],
    error := none, platform := "e", username := "alice",
    final_url := some "https://e.test/alice", content_length := some 0 }

/-! ## Theorems -/

/-- C2: every `ProbeResult` produced by `check_profile` — including every
error branch (timeout, connection error, other exception) — satisfies the
invariant that a false `exists` flag comes with an empty candidate image
list. -/
theorem check_profile_no_images_when_absent (templates : Templates)
    (url platform username : String) (outcome : FetchOutcome)
    (collected : List String)
    (h : (check_profile templates url platform username outcome
            collected).exists_ = false) :
    (check_profile templates url platform username outcome
      collected).image_urls = [] := by
  cases outcome with
  | ok resp =>
    simp only [check_profile] at h ⊢
    simp [h]
  | timeout => rfl
  | connectionError => rfl
  | exc msg => rfl

/-- Witness for C2 at a concrete timed-out probe. -/
theorem check_profile_no_images_when_absent_witness :
    (check_profile templatesC "https://e.test/alice" "e" "alice"
      FetchOutcome.timeout []).exists_ = false ∧
    (check_profile templatesC "https://e.test/alice" "e" "alice"
      FetchOutcome.timeout []).image_urls = [] :=
  ⟨rfl, check_profile_no_images_when_absent templatesC "https://e.test/alice"
    "e" "alice" FetchOutcome.timeout [] rfl⟩

/-- C6: `check_rate_limit` stores the timestamp captured at *entry* (before
any sleep), not at return.  With `RATE_LIMIT_DELAY = 1` and three sequential
calls for the same domain entered at times 0, 1/10 and 11/10 (each entered
after the previous call returned), the second call returns at time 1 while
the cache holds 1/10, and the third call sleeps not at all and returns at
11/10 — so two successive returns are only 1/10 apart, violating the claimed
lower bound of 1. -/
theorem rate_limit_gap_violation :
    (check_rate_limit [] "d" 0 1).2 = 0 ∧
    (check_rate_limit (check_rate_limit [] "d" 0 1).1 "d" (1/10) 1).2 = 1 ∧
    (check_rate_limit (check_rate_limit [] "d" 0 1).1 "d" (1/10) 1).1 =
      [("d", 1/10)] ∧
    (check_rate_limit (check_rate_limit [] "d" 0 1).1 "d" (1/10) 1).2 ≤
      11/10 ∧
    (check_rate_limit (check_rate_limit (check_rate_limit [] "d" 0 1).1 "d"
        (1/10) 1).1 "d" (11/10) 1).2 = 11/10 ∧
    ¬ (1 ≤ (check_rate_limit (check_rate_limit (check_rate_limit [] "d" 0
        1).1 "d" (1/10) 1).1 "d" (11/10) 1).2 -
        (check_rate_limit (check_rate_limit [] "d" 0 1).1 "d" (1/10) 1).2) :=
  by norm_num [check_rate_limit, List.lookup]

/-- C3: the output of `extract_images` depends on the iteration order of the
collected URL set: the two enumerations of the same two-element set rank the
cleaned URLs differently, so identical (html, base_url, platform_config)
inputs need not yield identical output lists across runs. -/
theorem extract_images_order_dependent :
    extract_images ["https://a.test/a.jpg", "https://b.test/b.jpg"] ≠
      extract_images ["https://b.test/b.jpg", "https://a.test/a.jpg"] ∧
    List.Perm ["https://b.test/b.jpg", "https://a.test/a.jpg"]
      ["https://a.test/a.jpg", "https://b.test/b.jpg"] :=
  ⟨by decide, List.Perm.swap _ _ _⟩

/-- Counterexample for C10: the `data:`/`javascript:` skip is case-sensitive
while `urlparse` lower-cases the scheme, so the candidate URL
`"DATA:foo.jpg"` (reachable e.g. through an `og:image` meta content, which
`urljoin` returns unchanged) survives the filter and is returned as the
data-scheme URI `"data://foo.jpg"`. -/
theorem extract_images_data_scheme_counterexample :
    extract_images ["DATA:foo.jpg"] = ["data://foo.jpg"] ∧
    pyStartsWith "data://foo.jpg" "data:" = true := by decide

/-- Counterexample for C5: on an ambiguous 200 response (no not-found
indicator, no positive profile indicator) the Instagram and universal
checkers return `true`, not the claimed conservative `false`. -/
theorem ambiguous_default_true_counterexample :
    instagram_check ambResponse "alice" = true ∧
    universal_check ambResponse "alice" = true := by decide

/-- Counterexample for C1: a username consisting of the empty string is
stripped and skipped by the submission loop, so its (username, enabled
platform) pairs are never probed: the total result count is 0 where the
claim demands `len(U) × len(enabled platforms in P) = 1`. -/
theorem crawl_blank_username_counterexample :
    totalResults (crawl_usernames probe0 templatesC [""] ["e"]) = 0 ∧
    List.length [""] * (enabledPlatformsIn templatesC ["e"]).length = 1 :=
  by decide

/-- C5 (amended): every existence strategy is a total function of the
response, and on an ambiguous 200 response — one matching neither a
not-found indicator nor a positive profile indicator of the strategy — the
strategies default to `true` (profile presumed present), with the exception
of the GitHub and Stack Overflow checkers, which default to `false`. -/
theorem strategy_ambiguous_defaults :
    (∀ r u, r.status_code = 200 →
      strContains (pyLower r.text) "sorry, this page isn't available" = false →
      instagram_check r u = true) ∧
    (∀ r u, r.status_code = 200 →
      strContains (pyLower r.text) "page not found" = false →
      strContains (pyLower r.text) "this user has deleted" = false →
      reddit_check r u = true) ∧
    (∀ r u, r.status_code = 200 →
      strContains (pyLower r.text) "doesn't exist" = false →
      strContains (pyLower r.text) "page not found" = false →
      artstation_check r u = true) ∧
    (∀ r u, r.status_code = 200 →
      strContains (pyLower r.text) "deviation you are looking for" = false →
      strContains (pyLower r.text) "does not exist" = false →
      deviantart_check r u = true) ∧
    (∀ r u, r.status_code = 200 →
      strContains (pyLower r.text) "no longer active" = false →
      strContains (pyLower r.text) "does not exist" = false →
      flickr_check r u = true) ∧
    (∀ r u, r.status_code = 200 →
      strContains (pyLower r.text) "could not be found" = false →
      _500px_check r u = true) ∧
    (∀ r u, r.status_code = 200 →
      strContains (pyLower r.text) "couldn't find that one" = false →
      bandcamp_check r u = true) ∧
    (∀ r u, r.status_code = 200 →
      strContains (pyLower r.text) "user not found" = false →
      keybase_check r u = true) ∧
    (∀ r u, r.status_code = 200 →
      strContains (pyLower r.text) "page could not be found" = false →
      gitlab_check r u = true) ∧
    (∀ r u, r.status_code = 200 →
      (∀ s ∈ universalNotFound, strContains (pyLower r.text) s = false) →
      universal_check r u = true) ∧
    (∀ r u, r.status_code = 200 →
      strContains (pyLower r.url) "twitter.com/home" = false →
      strContains (pyLower r.url) ("twitter.com/" ++ pyLower u) = false →
      strContains (pyLower r.text) "this account doesn't exist" = false →
      strContains (pyLower r.text) "account suspended" = false →
      twitter_check r u = true) ∧
    (∀ r u, r.status_code = 200 →
      strContains (pyLower r.text) (pyLower u) = false →
      r.hasUserProfileFrameDiv = false → r.hasItempropNameSpan = false →
      r.titleText = none → r.imgSrcs = [] →
      github_check r u = false) ∧
    (∀ r u, r.status_code = 200 →
      strContains (pyLower r.text) "user-card" = false →
      strContains (pyLower r.text) "user-avatar" = false →
      strContains (pyLower r.text) "user-details" = false →
      stackoverflow_check r u = false) := by
  refine ⟨fun r u h0 h1 => ?_, fun r u h0 h1 h2 => ?_, fun r u h0 h1 h2 => ?_,
    fun r u h0 h1 h2 => ?_, fun r u h0 h1 h2 => ?_, fun r u h0 h1 => ?_,
    fun r u h0 h1 => ?_, fun r u h0 h1 => ?_, fun r u h0 h1 => ?_,
    fun r u h0 hnf => ?_, fun r u h0 h1 h2 h3 h4 => ?_,
    fun r u h0 h1 h2 h3 h4 h5 => ?_, fun r u h0 h1 h2 h3 => ?_⟩
  · simp [instagram_check, h0, h1]
  · simp [reddit_check, h0, h1, h2]
  · simp [artstation_check, h0, h1, h2]
  · simp [deviantart_check, h0, h1, h2]
  · simp [flickr_check, h0, h1, h2]
  · simp [_500px_check, h0, h1]
  · simp [bandcamp_check, h0, h1]
  · simp [keybase_check, h0, h1]
  · simp [gitlab_check, h0, h1]
  · have hany : universalNotFound.any
        (fun s => strContains (pyLower r.text) s) = false := by
      rw [List.any_eq_false]
      intro s hs
      simp [hnf s hs]
    simp [universal_check, h0, hany]
  · simp [twitter_check, h0, h1, h2, h3, h4]
  · simp [github_check, h0, h1, h2, h3, h4, h5]
  · simp [stackoverflow_check, h0, h1, h2, h3]

/-- Witness for C5 (amended) at the concrete ambiguous 200 response:
the Instagram checker presumes present, the GitHub checker presumes
absent. -/
theorem strategy_ambiguous_defaults_witness :
    instagram_check ambResponse "alice" = true ∧
    github_check ambResponse "alice" = false :=
  ⟨strategy_ambiguous_defaults.1 ambResponse "alice" rfl (by decide),
   strategy_ambiguous_defaults.2.2.2.2.2.2.2.2.2.2.2.1 ambResponse "alice"
     rfl (by decide) rfl rfl rfl rfl⟩

/-- C4 (amended): on a non-200 status every existence strategy returns
false except two: `gitlab_check` (false exactly on 404, true on every other
non-200 status) and `twitter_check` (which consults the final URL and body
before the status and hence can return true on a non-200 response). -/
theorem non200_status_strategies (r : Response) (u : String) :
    (r.status_code ≠ 200 →
      github_check r u = false ∧ stackoverflow_check r u = false ∧
      instagram_check r u = false ∧ reddit_check r u = false ∧
      artstation_check r u = false ∧ deviantart_check r u = false ∧
      flickr_check r u = false ∧ _500px_check r u = false ∧
      bandcamp_check r u = false ∧ keybase_check r u = false ∧
      universal_check r u = false ∧ dispatchCheck "status_code" r u = false) ∧
    (r.status_code = 404 → gitlab_check r u = false) ∧
    (r.status_code ≠ 200 → r.status_code ≠ 404 → gitlab_check r u = true) := by
  refine ⟨fun h => ?_, fun h => ?_, fun h h4 => ?_⟩
  · exact ⟨by simp [github_check, h], by simp [stackoverflow_check, h],
      by simp [instagram_check, h], by simp [reddit_check, h],
      by simp [artstation_check, h], by simp [deviantart_check, h],
      by simp [flickr_check, h], by simp [_500px_check, h],
      by simp [bandcamp_check, h], by simp [keybase_check, h],
      by simp [universal_check, h], by simp [dispatchCheck, h]⟩
  · simp [gitlab_check, h]
  · simp [gitlab_check, h, h4]

/-- Counterexample for C4: *two* strategies — not exactly one — can report
existence on a non-200 status: the GitLab checker returns true on a bare
500, and the Twitter checker returns true on a 403 whose final URL is the
probed profile. -/
theorem non200_two_carveouts :
    gitlab_check resp500 "alice" = true ∧ resp500.status_code ≠ 200 ∧
    resp500.status_code ≠ 404 ∧
    twitter_check twResponse "alice" = true ∧
    twResponse.status_code ≠ 200 := by decide

/-- Witness for C4 (amended) at concrete 500 and 404 responses. -/
theorem non200_status_strategies_witness :
    github_check resp500 "alice" = false ∧
    gitlab_check resp404 "alice" = false ∧
    gitlab_check resp500 "alice" = true :=
  ⟨((non200_status_strategies resp500 "alice").1 (by decide)).1,
   (non200_status_strategies resp404 "alice").2.1 rfl,
   (non200_status_strategies resp500 "alice").2.2 (by decide) (by decide)⟩

/-- Decoding an encoded embedding vector recovers it. -/
theorem mapM_jsonToRat_num (l : List ℚ) :
    List.mapM jsonToRat (l.map Json.num) = some l := by
  induction l with
  | nil => rfl
  | cons x xs ih => rw [List.map_cons, List.mapM_cons, ih]; rfl

/-- Decoding an encoded face record recovers it field for field. -/
theorem faceRecordFromJson_toJson (r : FaceRecord) :
    faceRecordFromJson (faceRecordToJson r) = some r := by
  have h : List.mapM jsonToRat (List.map Json.num r.encoding) =
      some r.encoding := mapM_jsonToRat_num r.encoding
  simp [faceRecordToJson, faceRecordFromJson, List.lookup]
  rw [show List.mapM.loop jsonToRat (List.map Json.num r.encoding) [] =
        some r.encoding from h]

/-- C9: persistence round-trips losslessly — loading the JSON value produced
by saving any face index yields exactly the saved record sequence, field for
field, in the same order. -/
theorem index_roundtrip (faces : List FaceRecord) (now : ℚ) :
    load_index (save_index faces now) = some faces := by
  suffices h : (faces.map faceRecordToJson).mapM faceRecordFromJson =
      some faces by
    simpa [load_index, save_index, List.lookup] using h
  induction faces with
  | nil => rfl
  | cons f fs ih =>
    rw [List.map_cons, List.mapM_cons, faceRecordFromJson_toJson, ih]
    rfl

/-- The inner URL loop of the indexing pipeline accumulates exactly the
successfully indexed records, appended to both components. -/
theorem indexUrlsLoop_eq (tryImage : String → Option FaceRecord)
    (urls : List String) :
    ∀ st, indexUrlsLoop tryImage st urls =
      (st.1 ++ urls.filterMap tryImage, st.2 ++ urls.filterMap tryImage) := by
  induction urls with
  | nil => intro st; simp [indexUrlsLoop]
  | cons u us ih =>
    intro st
    simp only [indexUrlsLoop, List.foldl_cons]
    cases h : tryImage u with
    | none =>
      simpa [indexUrlsLoop, List.filterMap_cons, h] using ih st
    | some rec =>
      simpa [indexUrlsLoop, List.filterMap_cons, h, List.append_assoc]
        using ih (st.1 ++ [rec], st.2 ++ [rec])

/-- The per-result body contributes its probe result's successful records. -/
theorem indexResultLoop_eq (fetch : String → Option (List Nat))
    (encode : List Nat → Option (List ℚ)) (now : ℚ) (username : String)
    (r : ProbeResult) (st : List FaceRecord × List FaceRecord) :
    indexResultLoop fetch encode now username st r =
      (st.1 ++ (if r.exists_ then (r.image_urls.take 2).filterMap
                  (indexTryImage fetch encode now username r) else []),
       st.2 ++ (if r.exists_ then (r.image_urls.take 2).filterMap
                  (indexTryImage fetch encode now username r) else [])) := by
  cases hex : r.exists_ with
  | false => simp [indexResultLoop, hex]
  | true => simp [indexResultLoop, hex, indexUrlsLoop_eq]

/-- The middle loop over one username's probe results. -/
theorem indexResultsFold_eq (fetch : String → Option (List Nat))
    (encode : List Nat → Option (List ℚ)) (now : ℚ) (username : String)
    (rs : List ProbeResult) :
    ∀ st, rs.foldl (indexResultLoop fetch encode now username) st =
      (st.1 ++ rs.flatMap (fun r => if r.exists_ then
          (r.image_urls.take 2).filterMap
            (indexTryImage fetch encode now username r) else []),
       st.2 ++ rs.flatMap (fun r => if r.exists_ then
          (r.image_urls.take 2).filterMap
            (indexTryImage fetch encode now username r) else [])) := by
  induction rs with
  | nil => intro st; simp
  | cons r rs ih =>
    intro st
    rw [List.foldl_cons, indexResultLoop_eq, ih]
    simp [List.append_assoc]

/-- The outer loop over the crawl mapping. -/
theorem indexCrawlFold_eq (fetch : String → Option (List Nat))
    (encode : List Nat → Option (List ℚ)) (now : ℚ)
    (crs : List (String × List ProbeResult)) :
    ∀ st, crs.foldl (fun st kv =>
        kv.2.foldl (indexResultLoop fetch encode now kv.1) st) st =
      (st.1 ++ indexedFacesSpec fetch encode now crs,
       st.2 ++ indexedFacesSpec fetch encode now crs) := by
  induction crs with
  | nil => intro st; simp [indexedFacesSpec]
  | cons kv crs ih =>
    intro st
    rw [List.foldl_cons, indexResultsFold_eq, ih]
    simp [indexedFacesSpec, List.append_assoc]

/-- C8: the indexing pipeline's new faces are exactly the records described
by the spec — one per successfully downloaded and embedded candidate among
the first 2 image URLs of each `exists=true` result, in traversal order;
they are appended to the index; and in the concrete scenario where the first
of two candidates fails to download and the second succeeds, exactly one
record is created. -/
theorem index_from_results_spec (fetch : String → Option (List Nat))
    (encode : List Nat → Option (List ℚ)) (now : ℚ)
    (faces : List FaceRecord)
    (crawl_results : List (String × List ProbeResult)) :
    (index_from_results fetch encode now faces crawl_results).2 =
      indexedFacesSpec fetch encode now crawl_results ∧
    (index_from_results fetch encode now faces crawl_results).1 =
      faces ++ indexedFacesSpec fetch encode now crawl_results ∧
    (index_from_results demoFetch demoEncode 0 []
        [("alice", [demoProbeResult])]).2 =
      [{ username := "alice", platform := "e",
         page_url := "https://e.test/alice",
         image_url := "https://e.test/b.jpg", encoding := [0],
         timestamp := 0 }] := by
  refine ⟨?_, ?_, rfl⟩
  · rw [index_from_results, indexCrawlFold_eq]; rfl
  · rw [index_from_results, indexCrawlFold_eq]

/-- The descending-similarity comparison is transitive. -/
theorem searchLE_trans : ∀ a b c : MatchResult,
    searchLE a b → searchLE b c → searchLE a c := by
  intro a b c hab hbc
  simp only [searchLE, decide_eq_true_eq] at *
  exact le_trans hbc hab

/-- The descending-similarity comparison is total. -/
theorem searchLE_total : ∀ a b : MatchResult,
    searchLE a b || searchLE b a := by
  intro a b
  simp only [searchLE, Bool.or_eq_true, decide_eq_true_eq]
  exact le_total b.similarity a.similarity

/-- C7: `search_faces` truncates to `top_k` a stable descending sort of the
per-face results: the returned list is the `top_k`-prefix of the sorted
result list, has length at most `top_k`, is sorted by descending similarity,
the sorted list is a permutation of the per-face result list built in
insertion order, ties are broken by insertion order (the sub-list at any
fixed similarity value is preserved verbatim), each result's fields carry
`similarity = max(0, 1 - min(distance, 1))` and `match = (distance <
threshold)`, and the call leaves the index's record sequence unchanged. -/
theorem search_faces_spec (faces : List FaceRecord) (dist : List ℚ → ℚ)
    (threshold : ℚ) (top_k : Nat) :
    search_faces faces dist threshold top_k =
      ((faces.map (mkMatchResult dist threshold)).mergeSort searchLE).take
        top_k ∧
    (search_faces faces dist threshold top_k).length ≤ top_k ∧
    (search_faces faces dist threshold top_k).Pairwise
      (fun a b => b.similarity ≤ a.similarity) ∧
    ((faces.map (mkMatchResult dist threshold)).mergeSort searchLE).Perm
      (faces.map (mkMatchResult dist threshold)) ∧
    (∀ v : ℚ,
      ((faces.map (mkMatchResult dist threshold)).mergeSort searchLE).filter
          (fun r => decide (r.similarity = v)) =
        (faces.map (mkMatchResult dist threshold)).filter
          (fun r => decide (r.similarity = v))) ∧
    (∀ f, (mkMatchResult dist threshold f).distance = dist f.encoding ∧
      (mkMatchResult dist threshold f).similarity =
        max 0 (1 - min (dist f.encoding) 1) ∧
      (mkMatchResult dist threshold f).match_ =
        decide (dist f.encoding < threshold)) ∧
    (search_faces_method ⟨faces⟩ dist threshold top_k).2 = ⟨faces⟩ := by
  refine ⟨rfl, ?_, ?_, List.mergeSort_perm _ _, ?_, fun f => ⟨rfl, rfl, rfl⟩,
    rfl⟩
  · exact List.length_take_le _ _
  · have hs := List.sorted_mergeSort searchLE_trans searchLE_total
      (faces.map (mkMatchResult dist threshold))
    have hs' : ((faces.map (mkMatchResult dist threshold)).mergeSort
        searchLE).Pairwise (fun a b => b.similarity ≤ a.similarity) :=
      hs.imp (fun h => by simpa [searchLE, decide_eq_true_eq] using h)
    exact hs'.take
  · intro v
    have hc : ((faces.map (mkMatchResult dist threshold)).filter
        (fun r => decide (r.similarity = v))).Pairwise
        (fun a b => searchLE a b = true) := by
      apply List.pairwise_of_forall_mem_list
      intro a ha b hb
      have ha' := (List.mem_filter.mp ha).2
      have hb' := (List.mem_filter.mp hb).2
      simp only [decide_eq_true_eq] at ha' hb'
      simp [searchLE, ha', hb']
    have hsub : List.Sublist
        ((faces.map (mkMatchResult dist threshold)).filter
          (fun r => decide (r.similarity = v)))
        ((faces.map (mkMatchResult dist threshold)).mergeSort searchLE) :=
      List.sublist_mergeSort searchLE_trans searchLE_total hc
        (List.filter_sublist _)
    have heq : ((faces.map (mkMatchResult dist threshold)).filter
        (fun r => decide (r.similarity = v))).filter
        (fun r => decide (r.similarity = v)) =
        (faces.map (mkMatchResult dist threshold)).filter
        (fun r => decide (r.similarity = v)) :=
      List.filter_eq_self.mpr (fun a ha => (List.mem_filter.mp ha).2)
    have h1 := hsub.filter (fun r => decide (r.similarity = v))
    rw [heq] at h1
    have hperm : (((faces.map (mkMatchResult dist threshold)).mergeSort
        searchLE).filter (fun r => decide (r.similarity = v))).Perm
        ((faces.map (mkMatchResult dist threshold)).filter
          (fun r => decide (r.similarity = v))) :=
      (List.mergeSort_perm _ _).filter _
    exact (h1.eq_of_length hperm.length_eq.symm).symm

/-- Each loop step of the URL filter appends its per-URL outcome. -/
theorem filterCleanStep_eq (acc : List String) (url : String) :
    filterCleanStep acc url = acc ++ (filterCleanOpt url).toList := by
  simp only [filterCleanStep, filterCleanOpt]
  split
  · simp
  · split <;> simp

/-- The URL filter loop appends the kept per-URL outcomes in order. -/
theorem filterClean_foldl (l : List String) :
    ∀ acc, l.foldl filterCleanStep acc = acc ++ l.filterMap filterCleanOpt := by
  induction l with
  | nil => intro acc; simp
  | cons u us ih =>
    intro acc
    rw [List.foldl_cons, filterCleanStep_eq, ih]
    cases h : filterCleanOpt u <;>
      simp [List.filterMap_cons, h, List.append_assoc]

/-- The URL filter is the per-URL outcome map. -/
theorem filterClean_eq (l : List String) :
    filterClean l = l.filterMap filterCleanOpt := by
  have h := filterClean_foldl l []
  simpa [filterClean] using h

/-- De-duplication only drops elements. -/
theorem mem_dedupFirstAux (v : String) :
    ∀ (l seen : List String), v ∈ dedupFirstAux seen l → v ∈ l := by
  intro l
  induction l with
  | nil => intro seen h; simp [dedupFirstAux] at h
  | cons x xs ih =>
    intro seen h
    simp only [dedupFirstAux] at h
    split at h
    · exact List.mem_cons_of_mem x (ih seen h)
    · rcases List.mem_cons.mp h with h1 | h2
      · exact h1 ▸ List.mem_cons_self x xs
      · exact List.mem_cons_of_mem x (ih (x :: seen) h2)

/-- C10 (amended): every URL returned by `extract_images` is the rebuilt
`scheme://netloc/path` form (query and fragment removed) of a collected
candidate URL whose text does not start with the exact strings `data:` or
`javascript:` (the skip is case-sensitive, so upper-case schemes can slip
through), and either the candidate's parsed path ends with a configured
valid image extension or the cleaned URL contains a known avatar-host
substring. -/
theorem extract_images_clean (enum : List String) (v : String)
    (hv : v ∈ extract_images enum) :
    ∃ u ∈ enum, pyStartsWith u "data:" = false ∧
      pyStartsWith u "javascript:" = false ∧
      v = mkCleanUrl (pyUrlparse u) ∧
      (validImageExtensions.any
          (fun e => pyEndsWith (pyLower (pyUrlparse u).path) e) = true ∨
        knownAvatarHosts.any (fun h => strContains (pyLower v) h) = true) := by
  have h1 : v ∈ dedupFirst (filterClean enum) := List.mem_of_mem_take hv
  have h2 : v ∈ filterClean enum := mem_dedupFirstAux v _ _ h1
  rw [filterClean_eq] at h2
  obtain ⟨u, hu, hopt⟩ := List.mem_filterMap.mp h2
  simp only [filterCleanOpt] at hopt
  split at hopt
  · exact absurd hopt (by simp)
  · next hns =>
    rw [Bool.not_eq_true, Bool.or_eq_false_iff] at hns
    split at hopt
    · next hkeep =>
      refine ⟨u, hu, hns.1, hns.2, (Option.some.inj hopt).symm, ?_⟩
      rw [← Option.some.inj hopt]
      simpa using hkeep
    · exact absurd hopt (by simp)

/-- Witness for C10 (amended): the query and fragment of a collected
candidate are stripped and the cleaned URL is kept for its `.png` path. -/
theorem extract_images_clean_witness :
    ∃ u ∈ ["https://a.test/x.png?q=1#f"],
      pyStartsWith u "data:" = false ∧
      pyStartsWith u "javascript:" = false ∧
      "https://a.test/x.png" = mkCleanUrl (pyUrlparse u) ∧
      (validImageExtensions.any
          (fun e => pyEndsWith (pyLower (pyUrlparse u).path) e) = true ∨
        knownAvatarHosts.any
          (fun h => strContains (pyLower "https://a.test/x.png") h) = true) :=
  extract_images_clean ["https://a.test/x.png?q=1#f"] "https://a.test/x.png"
    (by decide)

/-- A `filterMap` that never drops is a `map`. -/
theorem filterMap_eq_map_of_mem {α : Type _} {β : Type _} (f : α → Option β)
    (g : α → β) (l : List α) (h : ∀ a ∈ l, f a = some (g a)) :
    l.filterMap f = l.map g := by
  induction l with
  | nil => rfl
  | cons a as ih =>
    simp [List.filterMap_cons, h a (List.mem_cons_self a as),
      ih (fun x hx => h x (List.mem_cons_of_mem a hx))]

/-- `flatMap` respects pointwise equality on the list's members. -/
theorem flatMap_congr_mem {α : Type _} {β : Type _} (f g : α → List β)
    (l : List α) (h : ∀ a ∈ l, f a = g a) : l.flatMap f = l.flatMap g := by
  induction l with
  | nil => rfl
  | cons a as ih =>
    simp [List.flatMap_cons, h a (List.mem_cons_self a as),
      ih (fun x hx => h x (List.mem_cons_of_mem a hx))]

/-- The dictionary comprehension over distinct usernames lists one empty
entry per username, in order. -/
theorem initResults_foldl :
    ∀ (l : List String) (acc : List (String × List ProbeResult)),
    l.Nodup → (∀ u ∈ l, acc.any (fun kv => kv.1 == u) = false) →
    l.foldl (fun d u => if d.any (fun kv => kv.1 == u) then d
      else d ++ [(u, [])]) acc = acc ++ l.map (fun u => (u, [])) := by
  intro l
  induction l with
  | nil => intro acc _ _; simp
  | cons u us ih =>
    intro acc hnd hacc
    have h0 : acc.any (fun kv => kv.1 == u) = false :=
      hacc u (List.mem_cons_self u us)
    rw [List.foldl_cons, if_neg (by simp [h0]),
        ih (acc ++ [(u, [])]) (List.nodup_cons.mp hnd).2 ?_]
    · simp
    · intro x hx
      rw [List.any_append]
      have hne : u ≠ x := fun he => (List.nodup_cons.mp hnd).1 (he ▸ hx)
      simp [hacc x (List.mem_cons_of_mem u hx), hne]

/-- `initResults` on distinct usernames. -/
theorem initResults_eq (usernames : List String) (h : usernames.Nodup) :
    initResults usernames =
      usernames.map (fun u => (u, ([] : List ProbeResult))) := by
  have h1 := initResults_foldl usernames [] h (by simp)
  simpa [initResults] using h1

/-- Under well-formed inputs the submission loop produces one future per
username × platform, in order. -/
theorem buildFutures_eq (templates : Templates)
    (usernames platforms : List String)
    (hu : ∀ u ∈ usernames, pyStrip u = u ∧ u ≠ "")
    (hp : ∀ p ∈ platforms, (List.lookup p templates).isSome = true)
    (hurl : ∀ p ∈ platforms, ∀ u ∈ usernames,
      resolvedUrl templates p u ≠ "") :
    buildFutures templates usernames platforms =
      usernames.flatMap (fun u => platforms.map
        (fun p => (u, p, resolvedUrl templates p u))) := by
  unfold buildFutures
  apply flatMap_congr_mem
  intro u hu'
  obtain ⟨hstrip, hne⟩ := hu u hu'
  dsimp only
  rw [hstrip, if_neg hne]
  apply filterMap_eq_map_of_mem
  intro p hp'
  obtain ⟨tv, htv⟩ := Option.isSome_iff_exists.mp (hp p hp')
  have hres : resolvedUrl templates p u = templateUrl tv u := by
    simp only [resolvedUrl, htv]
  have hne2 : templateUrl tv u ≠ "" := hres ▸ hurl p hp' u hu'
  simp only [htv, if_neg hne2, hres]

/-- Processing one username's block of futures appends that username's
probe results to its entry, leaving all other entries untouched. -/
theorem appendResult_block (u : String)
    (probe : String → String → String → ProbeResult) (urlf : String → String)
    (A B : List (String × List ProbeResult))
    (hA : ∀ kv ∈ A, (kv.1 == u) = false)
    (hB : ∀ kv ∈ B, (kv.1 == u) = false) :
    ∀ (ps : List String) (vs : List ProbeResult),
    ((ps.map (fun p => (u, p, urlf p))).foldl
        (fun res f => appendResult res f.1 (probe f.2.2 f.2.1 f.1))
        (A ++ (u, vs) :: B))
      = A ++ (u, vs ++ ps.map (fun p => probe (urlf p) p u)) :: B := by
  intro ps
  induction ps with
  | nil => intro vs; simp
  | cons p ps ih =>
    intro vs
    have hstep : appendResult (A ++ (u, vs) :: B) u (probe (urlf p) p u)
        = A ++ (u, vs ++ [probe (urlf p) p u]) :: B := by
      unfold appendResult
      rw [if_pos (by simp [List.any_append])]
      rw [List.map_append, List.map_cons]
      have hAmap : A.map (fun kv => if kv.1 == u
          then (kv.1, kv.2 ++ [probe (urlf p) p u]) else kv) = A :=
        (List.map_congr_left (fun a ha => by simp [hA a ha])).trans
          (List.map_id A)
      have hBmap : B.map (fun kv => if kv.1 == u
          then (kv.1, kv.2 ++ [probe (urlf p) p u]) else kv) = B :=
        (List.map_congr_left (fun a ha => by simp [hB a ha])).trans
          (List.map_id B)
      rw [hAmap, hBmap]
      simp
    simp only [List.map_cons, List.foldl_cons]
    rw [hstep, ih (vs ++ [probe (urlf p) p u])]
    simp [List.append_assoc]

/-- The result-processing loop fills each distinct username's entry with
its platform probes, in submission order. -/
theorem crawl_fold (probe : String → String → String → ProbeResult)
    (templates : Templates) (platforms : List String) :
    ∀ (us : List String) (done : List (String × List ProbeResult)),
    us.Nodup → (∀ u ∈ us, ∀ kv ∈ done, (kv.1 == u) = false) →
    ((us.flatMap (fun u => platforms.map
        (fun p => (u, p, resolvedUrl templates p u)))).foldl
        (fun res f => appendResult res f.1 (probe f.2.2 f.2.1 f.1))
        (done ++ us.map (fun u => (u, []))))
      = done ++ us.map (fun u =>
          (u, platforms.map (fun p => probe (resolvedUrl templates p u) p u))) := by
  intro us
  induction us with
  | nil => intro done _ _; simp
  | cons u us ih =>
    intro done hnd hdone
    rw [List.flatMap_cons, List.foldl_append, List.map_cons]
    have hB : ∀ kv ∈ us.map (fun u => ((u : String),
        ([] : List ProbeResult))), (kv.1 == u) = false := by
      intro kv hkv
      obtain ⟨x, hx, rfl⟩ := List.mem_map.mp hkv
      have hne : x ≠ u := fun he => (List.nodup_cons.mp hnd).1 (he ▸ hx)
      simp [hne]
    rw [appendResult_block u probe (fun p => resolvedUrl templates p u)
        done (us.map (fun u => (u, [])))
        (fun kv hkv => hdone u (List.mem_cons_self u us) kv hkv) hB
        platforms []]
    rw [List.nil_append, List.append_cons]
    rw [ih (done ++ [(u, platforms.map
          (fun p => probe (resolvedUrl templates p u) p u))])
        (List.nodup_cons.mp hnd).2 ?_]
    · simp
    · intro x hx kv hkv
      rcases List.mem_append.mp hkv with h1 | h2
      · exact hdone x (List.mem_cons_of_mem u hx) kv h1
      · have : kv = (u, platforms.map
            (fun p => probe (resolvedUrl templates p u) p u)) := by
          simpa using h2
        subst this
        have hne : u ≠ x := fun he => (List.nodup_cons.mp hnd).1 (he ▸ hx)
        simp [hne]

/-- C1 (amended): for pairwise-distinct usernames that are nonempty and
unchanged by stripping, and platforms each present in the loaded templates
with a nonempty resolved URL, `crawl_usernames` returns one entry per
username, each holding exactly one `ProbeResult` per platform of `P`, in
submission order — even when probes fail, since failures are values of the
probe function — so the total count is `len(U) × len(P)` and empty inputs
yield an empty mapping. -/
theorem crawl_usernames_complete
    (probe : String → String → String → ProbeResult) (templates : Templates)
    (usernames platforms : List String)
    (hnd : usernames.Nodup)
    (hu : ∀ u ∈ usernames, pyStrip u = u ∧ u ≠ "")
    (hp : ∀ p ∈ platforms, (List.lookup p templates).isSome = true)
    (hurl : ∀ p ∈ platforms, ∀ u ∈ usernames,
      resolvedUrl templates p u ≠ "") :
    crawl_usernames probe templates usernames platforms =
      usernames.map (fun u => (u, platforms.map
        (fun p => probe (resolvedUrl templates p u) p u))) ∧
    totalResults (crawl_usernames probe templates usernames platforms) =
      usernames.length * platforms.length := by
  have h1 : crawl_usernames probe templates usernames platforms =
      usernames.map (fun u => (u, platforms.map
        (fun p => probe (resolvedUrl templates p u) p u))) := by
    unfold crawl_usernames
    rw [buildFutures_eq templates usernames platforms hu hp hurl,
        initResults_eq usernames hnd]
    have h2 := crawl_fold probe templates platforms usernames [] hnd
      (by simp)
    simpa using h2
  refine ⟨h1, ?_⟩
  rw [h1]
  simp [totalResults, List.map_map, Function.comp_def, List.length_map,
    List.map_const', List.sum_replicate, smul_eq_mul]

/-- Witness for C1 (amended) at one username and one configured platform. -/
theorem crawl_usernames_complete_witness :
    crawl_usernames probe0 templatesC ["alice"] ["e"] =
      [("alice", [probe0 (resolvedUrl templatesC "e" "alice") "e" "alice"])] := by
  have h := (crawl_usernames_complete probe0 templatesC ["alice"] ["e"]
    (by decide) (by decide) (by decide) (by decide)).1
  simpa using h

end Facematch
